import Mathlib

/-!
# begonia: dispatch layer and client receive loop

A shallow embedding of `dispatch/dispatch.go`, `dispatch/dispatch_default_link.go`
and `logic/logic_client.go`.

Conventions of the embedding.

* A Go `error` is `GoError = Option String`: `none` is `nil`, `some m` an error
  whose message is `m`.  `fmt.Errorf("p: %w", e)` has the message `"p: " ++ e`.
* A Go panic is a value of `PanicVal`.  A function that may panic returns
  `Except PanicVal _`, or a record with a field saying whether it aborted.
* A callback supplied by the caller is arbitrary Go code: it acts on the part
  of the world the dispatcher does not own, the type parameter `σ`, and it may
  panic.  Nothing in this layer recovers from a panic.
* What the dispatcher itself does to the outside (sleeping, dialling, writing,
  receiving, closing, calling a hook, handing a frame to the router) is
  recorded, in order, as a list of `Event`s.
* Unbounded `for` loops take a fuel argument and return `none` when the fuel
  runs out before the loop has ended.
* Calls of the `log` package are left out: they change nothing the dispatcher
  reads.
-/

namespace dispatch

/-- Go error value: `none` is `nil`. -/
abbrev GoError := Option String

/-- Byte slices, one natural number below 256 per byte. -/
abbrev Bytes := List Nat

/-- Values a Go panic can carry in this code. -/
inductive PanicVal where
  /-- Form `panic("...")` with a string. -/
  | str (msg : String)
  /-- Form `panic(err)` with an error value. -/
  | err (msg : String)
  /-- Run-time error: method call or field access through a nil pointer or nil interface. -/
  | nilDeref
  deriving DecidableEq, Repr

/-- Handle of a connection returned by `conn.Dial`. -/
structure Conn where
  id : Nat
  deriving DecidableEq, Repr

/-- The two observations the dispatcher makes of a `frame.Frame`. -/
structure Frame where
  Opcode : Int
  Marshal : Bytes
  deriving DecidableEq, Repr

/-- Go conversion `byte(n)` of an `int`. -/
def toByte (n : Int) : Nat := (n % 256).toNat

/-- Observable actions of the dispatcher, in the order they happen. -/
inductive Event where
  /-- Call `time.Sleep(time.Duration(seconds) * time.Second)`. -/
  | sleep (seconds : Int)
  /-- Call `conn.Dial(addr)`. -/
  | dial (addr : String)
  /-- Statement `go d.work(c)`. -/
  | goWork (c : Conn)
  /-- Call `c.Write(opcode, payload)`. -/
  | write (c : Conn) (opcode : Nat) (payload : Bytes)
  /-- Call `c.Recv()`. -/
  | recv (c : Conn)
  /-- Call `c.Close()`. -/
  | close (c : Conn)
  /-- Call `d.rt.Do(connID, opcode, payload)`. -/
  | routerDo (connID : String) (opcode : Nat) (payload : Bytes)
  /-- Call of the hook at position `i` of `CloseHookFuncList` with `(connID, err)`. -/
  | hookCall (i : Nat) (connID : String) (err : GoError)
  deriving DecidableEq, Repr

/-- Go type `func(connID string, err error)`. -/
abbrev CloseHookFunc (σ : Type) := String → GoError → σ → Except PanicVal σ

/-- Go type `func(connID string, f frame.Frame)`. -/
abbrev FrameHandler (σ : Type) := String → Frame → σ → Except PanicVal σ

/-- Go type `func(connID string, data []byte)`. -/
abbrev CtrlHandler (σ : Type) := String → Bytes → σ → Except PanicVal σ

/-- Go type `func() (code int, fun func(connID string, data []byte))`. -/
abbrev CtrlRegistrar (σ : Type) := σ → Except PanicVal ((Int × CtrlHandler σ) × σ)

/-- Dynamic values passed as `interface{}` to `Hook` and `Handle`, by dynamic type. -/
inductive Dyn (σ : Type) where
  /-- The nil interface value. -/
  | nil
  /-- Value of type `func(connID string, err error)`. -/
  | closeHook (f : CloseHookFunc σ)
  /-- Value of type `func(connID string, f frame.Frame)`. -/
  | frameHandler (f : FrameHandler σ)
  /-- Value of type `func() (code int, fun func(connID string, data []byte))`. -/
  | ctrlRegistrar (f : CtrlRegistrar σ)
  /-- Value of any other type; `typeName` is `reflect.TypeOf(v).String()`. -/
  | other (typeName : String)

/-- Modelled from the spec: the package `dispatch/router` (type `Router`, `New`,
`AddCtrlHandle`, `Do`) is not among the sources.  The router holds the generic
frame handler (the field `LgHandleFrame` assigned in `Handle`) and a control
table from control code to handler. -/
structure Router (σ : Type) where
  LgHandleFrame : FrameHandler σ
  ctrlHandle : List (Int × CtrlHandler σ)

/-- Modelled from the spec: `router.New(fun)` is a router whose frame handler is
`fun` and whose control table is empty. -/
def Router.New {σ : Type} (fn : FrameHandler σ) : Router σ :=
  { LgHandleFrame := fn, ctrlHandle := [] }

/-- Modelled from the spec: `addCtrlHandle(code, fn)` registers a control handler;
overwriting an existing code is allowed, the last write wins. -/
def Router.AddCtrlHandle {σ : Type} (r : Router σ) (code : Int) (fn : CtrlHandler σ) :
    Router σ :=
  { r with ctrlHandle := (code, fn) :: r.ctrlHandle.filter (fun e => decide (e.1 ≠ code)) }

/-- Handler registered under a control code, if any. -/
def Router.ctrlLookup {σ : Type} (r : Router σ) (code : Int) : Option (CtrlHandler σ) :=
  (r.ctrlHandle.find? (fun e => decide (e.1 = code))).map Prod.snd

/-- Struct `baseDispatch`: the close hooks and the router pointer (`none` is nil). -/
structure baseDispatch (σ : Type) where
  CloseHookFuncList : List (CloseHookFunc σ)
  rt : Option (Router σ)

/-- State of a `baseDispatch` and of the caller's world after a method call,
with the panic that ended the call, if one did. -/
structure Outcome (σ : Type) where
  d : baseDispatch σ
  user : σ
  aborted : Option PanicVal

/-- Method `baseDispatch.Handle` (dispatch.go, lines 70-91). -/
def baseDispatch.Handle {σ : Type} (d : baseDispatch σ) (typ : String) (fn : Dyn σ) (u : σ) :
    Outcome σ :=
  if typ = "frame" then
    match fn with
    | Dyn.frameHandler fun1 =>
      match d.rt with
      | none => { d := { d with rt := some (Router.New fun1) }, user := u, aborted := none }
      | some r =>
        { d := { d with rt := some { r with LgHandleFrame := fun1 } }, user := u, aborted := none }
    | _ => { d := d, user := u,
             aborted := some (PanicVal.err "dispatch handle error: handle func not match") }
  else if typ = "ctrl" then
    match fn with
    | Dyn.ctrlRegistrar fun1 =>
      match fun1 u with
      | Except.error p => { d := d, user := u, aborted := some p }
      | Except.ok ((code, f), u1) =>
        match d.rt with
        | none => { d := d, user := u1, aborted := some PanicVal.nilDeref }
        | some r =>
          { d := { d with rt := some (r.AddCtrlHandle code f) }, user := u1, aborted := none }
    | _ => { d := d, user := u,
             aborted := some (PanicVal.err "dispatch handle error: handle func not match") }
  else
    { d := d, user := u,
      aborted := some (PanicVal.err "dispatch handle error: you handle func not exist") }

/-- State of a `baseDispatch` after `Hook`, with the panic that ended the call, if any. -/
structure HookOutcome (σ : Type) where
  d : baseDispatch σ
  aborted : Option PanicVal

/-- Method `baseDispatch.Hook` (dispatch.go, lines 94-105).  With a nil interface
the type assertion fails and `reflect.TypeOf(nil).String()` is a call through a
nil interface. -/
def baseDispatch.Hook {σ : Type} (d : baseDispatch σ) (name : String) (hookFunc : Dyn σ) :
    HookOutcome σ :=
  if name = "close" then
    match hookFunc with
    | Dyn.closeHook f =>
      { d := { d with CloseHookFuncList := d.CloseHookFuncList ++ [f] }, aborted := none }
    | Dyn.nil => { d := d, aborted := some PanicVal.nilDeref }
    | Dyn.frameHandler _ =>
      { d := d, aborted := some (PanicVal.str
          ("close func must func(connID string, err error) but " ++
            "func(string, frame.Frame)")) }
    | Dyn.ctrlRegistrar _ =>
      { d := d, aborted := some (PanicVal.str
          ("close func must func(connID string, err error) but " ++
            "func() (int, func(string, []uint8))")) }
    | Dyn.other t =>
      { d := d, aborted := some (PanicVal.str
          ("close func must func(connID string, err error) but " ++ t)) }
  else
    { d := d, aborted := some (PanicVal.str ("hook func " ++ name ++ " not exist")) }

/-- Events and final result of a piece of dispatcher code that calls callbacks. -/
structure Run (σ : Type) where
  events : List Event
  result : Except PanicVal σ

/-- The `range` loop of `DoCloseHook`, from position `i` of the list on. -/
def runHooks {σ : Type} (connID : String) (err : GoError) :
    List (CloseHookFunc σ) → Nat → σ → Run σ
  | [], _, u => { events := [], result := Except.ok u }
  | f :: fs, i, u =>
    match f connID err u with
    | Except.error p => { events := [Event.hookCall i connID err], result := Except.error p }
    | Except.ok u1 =>
      let r := runHooks connID err fs (i + 1) u1
      { events := Event.hookCall i connID err :: r.events, result := r.result }

/-- Method `baseDispatch.DoCloseHook` (dispatch.go, lines 107-113).  A nil slice
and an empty slice are both the empty list. -/
def baseDispatch.DoCloseHook {σ : Type} (d : baseDispatch σ) (connID : String) (err : GoError)
    (u : σ) : Run σ :=
  runHooks connID err d.CloseHookFuncList 0 u

/-- The part of the transport the dispatcher talks to: the events so far, the
outcomes of the dials still to come (`dials 0 addr` is the outcome of the next
`conn.Dial(addr)`), and the errors returned by the writes still to come. -/
structure World where
  trace : List Event
  dials : Nat → String → Except String Conn
  writes : Nat → Conn → Nat → Bytes → GoError

/-- Record one event. -/
def World.emit (w : World) (e : Event) : World :=
  { w with trace := w.trace ++ [e] }

/-- Struct `linkDispatch` (dispatch_default_link.go, lines 64-71).  The field
`linkedConn` has an interface type, `none` is its nil value. -/
structure linkDispatch (σ : Type) extends baseDispatch σ where
  linkAddr : String
  linkedConn : Option Conn
  linkID : String

/-- The fields of `config.C.Dispatch` read by this file; the package `config` is
not among the sources. -/
structure DispatchConfig where
  AutoReConnection : Bool
  ReConnectionRetryCount : Int
  ReConnectionIntervalSecond : Int
  deriving DecidableEq, Repr

/-- Result of `Link`: the dispatcher, the world, and the returned error. -/
structure LinkOutcome (σ : Type) where
  d : linkDispatch σ
  w : World
  err : GoError

/-- Method `linkDispatch.Link` (dispatch_default_link.go, lines 74-88). -/
def linkDispatch.Link {σ : Type} (d : linkDispatch σ) (addr : String) (w : World) :
    LinkOutcome σ :=
  let d1 : linkDispatch σ := { d with linkAddr := addr }
  let w1 : World := { (w.emit (Event.dial addr)) with dials := fun n => w.dials (n + 1) }
  match w.dials 0 addr with
  | Except.error e => { d := d1, w := w1, err := some ("dispatch link error: " ++ e) }
  | Except.ok c =>
    { d := { d1 with linkedConn := some c }, w := w1.emit (Event.goWork c), err := none }

/-- Result of `ReLink`: the dispatcher, the world, and the returned boolean. -/
structure ReLinkOutcome (σ : Type) where
  d : linkDispatch σ
  w : World
  ok : Bool

/-- Method `linkDispatch.ReLink` (dispatch_default_link.go, lines 90-93). -/
def linkDispatch.ReLink {σ : Type} (d : linkDispatch σ) (w : World) : ReLinkOutcome σ :=
  let r := d.Link d.linkAddr w
  { d := r.d, w := r.w, ok := r.err.isNone }

/-- Result of `Send` and `SendTo`: the world, the returned error, and the panic
that ended the call, if one did.  Neither method assigns a field. -/
structure SendOutcome where
  w : World
  err : GoError
  aborted : Option PanicVal

/-- The call `d.linkedConn.Write(byte(f.Opcode()), f.Marshal())`. -/
def linkDispatch.writeFrame {σ : Type} (d : linkDispatch σ) (f : Frame) (w : World) :
    SendOutcome :=
  match d.linkedConn with
  | none => { w := w, err := none, aborted := some PanicVal.nilDeref }
  | some c =>
    { w := { (w.emit (Event.write c (toByte f.Opcode) f.Marshal)) with
             writes := fun n => w.writes (n + 1) },
      err := w.writes 0 c (toByte f.Opcode) f.Marshal,
      aborted := none }

/-- Method `linkDispatch.Send` (dispatch_default_link.go, lines 96-100). -/
def linkDispatch.Send {σ : Type} (d : linkDispatch σ) (f : Frame) (w : World) : SendOutcome :=
  d.writeFrame f w

/-- Method `linkDispatch.SendTo` (dispatch_default_link.go, lines 102-110). -/
def linkDispatch.SendTo {σ : Type} (d : linkDispatch σ) (connID : String) (f : Frame)
    (w : World) : SendOutcome :=
  if connID ≠ d.linkID then
    { w := w,
      err := some ("dispatch send error: in linked mode, you can't use SendTo() to another " ++
        "conn, please use Send() or passing manager bgacenter connID"),
      aborted := none }
  else
    d.writeFrame f w

/-- Method `linkDispatch.Listen` (dispatch_default_link.go, lines 112-114). -/
def linkDispatch.Listen {σ : Type} (_d : linkDispatch σ) (_addr : String) : PanicVal :=
  PanicVal.str "link mode can't use Listen()"

/-- Method `linkDispatch.Close` (dispatch_default_link.go, lines 138-140): the
events of the call, or the panic of a call through a nil interface. -/
def linkDispatch.Close {σ : Type} (d : linkDispatch σ) : Except PanicVal (List Event) :=
  match d.linkedConn with
  | none => Except.error PanicVal.nilDeref
  | some c => Except.ok [Event.close c]

/-- The `for` loop of `work` (dispatch_default_link.go, lines 124-134).
`recvs 0` is the result of the next `c.Recv()`.  `routerDo` stands for the
method `Router.Do`, which is not among the sources; it receives the router
pointer as it is, nil included. -/
def linkDispatch.workLoop {σ : Type}
    (routerDo : Option (Router σ) → String → Nat → Bytes → σ → Except PanicVal σ)
    (d : linkDispatch σ) (c : Conn) (id : String) :
    Nat → (Nat → Except String (Nat × Bytes)) → σ → Option (Run σ)
  | 0, _, _ => none
  | fuel + 1, recvs, u =>
    match recvs 0 with
    | Except.error e =>
      let r := d.DoCloseHook id (some e) u
      some { events := [Event.recv c, Event.close c] ++ r.events, result := r.result }
    | Except.ok (opcode, payload) =>
      match routerDo d.rt id opcode payload u with
      | Except.error p =>
        some { events := [Event.recv c, Event.routerDo id opcode payload],
               result := Except.error p }
      | Except.ok u1 =>
        match linkDispatch.workLoop routerDo d c id fuel (fun n => recvs (n + 1)) u1 with
        | none => none
        | some r =>
          some { events := Event.recv c :: Event.routerDo id opcode payload :: r.events,
                 result := r.result }

/-- Method `linkDispatch.work` (dispatch_default_link.go, lines 117-136).  `id`
is the value returned by `ids.New()`.  The result is the dispatcher with its
link id assigned, and the run of the loop (`none` when the fuel ran out). -/
def linkDispatch.work {σ : Type}
    (routerDo : Option (Router σ) → String → Nat → Bytes → σ → Except PanicVal σ)
    (d : linkDispatch σ) (c : Conn) (id : String) (fuel : Nat)
    (recvs : Nat → Except String (Nat × Bytes)) (u : σ) : linkDispatch σ × Option (Run σ) :=
  let d1 : linkDispatch σ := { d with linkID := id }
  (d1, linkDispatch.workLoop routerDo d1 c id fuel recvs u)

/-- State of the variables of the reconnect goroutine at a loop exit. -/
structure LoopEnd (σ : Type) where
  d : linkDispatch σ
  w : World
  i : Int
  ok : Bool

/-- The loop `for !ok` (dispatch_default_link.go, lines 36-40). -/
def retryForever {σ : Type} (cfg : DispatchConfig) :
    Nat → linkDispatch σ → World → Bool → Option (LoopEnd σ)
  | 0, d, w, ok => if !ok then none else some { d := d, w := w, i := 0, ok := ok }
  | fuel + 1, d, w, ok =>
    if !ok then
      let r := d.ReLink (w.emit (Event.sleep cfg.ReConnectionIntervalSecond))
      retryForever cfg fuel r.d r.w r.ok
    else some { d := d, w := w, i := 0, ok := ok }

/-- The loop `for i := 0; i < limit && !ok; i++` (dispatch_default_link.go,
lines 44-48), entered with the current value of `i`. -/
def retryLimited {σ : Type} (cfg : DispatchConfig) :
    Nat → Int → linkDispatch σ → World → Bool → Option (LoopEnd σ)
  | 0, i, d, w, ok =>
    if i < cfg.ReConnectionRetryCount && !ok then none
    else some { d := d, w := w, i := i, ok := ok }
  | fuel + 1, i, d, w, ok =>
    if i < cfg.ReConnectionRetryCount && !ok then
      let r := d.ReLink (w.emit (Event.sleep cfg.ReConnectionIntervalSecond))
      retryLimited cfg fuel (i + 1) r.d r.w r.ok
    else some { d := d, w := w, i := i, ok := ok }

/-- End of the reconnect goroutine: the state at the loop exit and the panic
raised after it, if any. -/
structure TaskEnd (σ : Type) where
  d : linkDispatch σ
  w : World
  ok : Bool
  aborted : Option PanicVal

/-- Body of the goroutine started by the close hook when auto-reconnect is on
(dispatch_default_link.go, lines 31-55).  The configuration is read as a
constant.  The result is `none` when the fuel ran out inside a loop. -/
def reconnectTask {σ : Type} (cfg : DispatchConfig) (fuel : Nat) (d : linkDispatch σ)
    (w : World) : Option (TaskEnd σ) :=
  if cfg.ReConnectionRetryCount ≤ 0 then
    match retryForever cfg fuel d w false with
    | none => none
    | some e => some { d := e.d, w := e.w, ok := e.ok, aborted := none }
  else
    match retryLimited cfg fuel 0 d w false with
    | none => none
    | some e =>
      some { d := e.d, w := e.w, ok := e.ok,
             aborted := if !e.ok then some (PanicVal.str "connect closed") else none }

/-- Function `NewLinkedByDefaultCluster` (dispatch_default_link.go, lines 16-62).
`goReconnect` is the effect on the caller's world of the statement `go func()`,
whose body is `reconnectTask`.  Both calls of `Hook` pass a function of the
right type, so neither panics. -/
def NewLinkedByDefaultCluster {σ : Type} (cfg : DispatchConfig) (goReconnect : σ → σ) :
    linkDispatch σ :=
  let d : linkDispatch σ :=
    { CloseHookFuncList := [], rt := none, linkAddr := "", linkedConn := none, linkID := "" }
  if !cfg.AutoReConnection then
    { d with tobaseDispatch := (d.tobaseDispatch.Hook "close"
        (Dyn.closeHook (fun _ _ _ => Except.error (PanicVal.str "conn close")))).d }
  else
    { d with tobaseDispatch := (d.tobaseDispatch.Hook "close"
        (Dyn.closeHook (fun _ _ u => Except.ok (goReconnect u)))).d }

/-- Number of `conn.Dial` calls in a trace. -/
def dialCount (tr : List Event) : Nat :=
  tr.countP (fun e => match e with | Event.dial _ => true | _ => false)

/-- Number of `Write` calls in a trace. -/
def writeCount (tr : List Event) : Nat :=
  tr.countP (fun e => match e with | Event.write _ _ _ => true | _ => false)

/-- Events of one pass through a retry loop body whose dial has the given outcome. -/
def attemptEvents (iv : Int) (addr : String) : Except String Conn → List Event
  | Except.error _ => [Event.sleep iv, Event.dial addr]
  | Except.ok c => [Event.sleep iv, Event.dial addr, Event.goWork c]

/-- Events of the first `n` passes through a retry loop body. -/
def retryEvents (iv : Int) (addr : String) (dials : Nat → String → Except String Conn) :
    Nat → List Event
  | 0 => []
  | n + 1 => attemptEvents iv addr (dials 0 addr) ++
      retryEvents iv addr (fun k => dials (k + 1)) n

/-- Whether a dial outcome is a failure. -/
def dialFails (o : Except String Conn) : Bool :=
  match o with
  | Except.error _ => true
  | Except.ok _ => false

/-- Events of one `Link` call to `addr` whose dial has the given outcome. -/
def linkEvents (addr : String) : Except String Conn → List Event
  | Except.error _ => [Event.dial addr]
  | Except.ok c => [Event.dial addr, Event.goWork c]

/-- A world in which every dial is refused and every write succeeds. -/
def refusingWorld : World :=
  { trace := [], dials := fun _ _ => Except.error "connection refused",
    writes := fun _ _ _ _ => none }

/-- A world in which the first two dials are refused and the later ones succeed. -/
def flakyWorld : World :=
  { trace := [],
    dials := fun n _ => if n < 2 then Except.error "connection refused" else Except.ok ⟨n⟩,
    writes := fun _ _ _ _ => none }

/-- Configuration without auto-reconnect. -/
def cfgNoReconnect : DispatchConfig :=
  { AutoReConnection := false, ReConnectionRetryCount := 0, ReConnectionIntervalSecond := 1 }

/-- Configuration with auto-reconnect and the given retry limit, one second apart. -/
def cfgReconnect (limit : Int) : DispatchConfig :=
  { AutoReConnection := true, ReConnectionRetryCount := limit, ReConnectionIntervalSecond := 1 }

/-- A dispatcher linked to connection 7 under the link id `"c1"`. -/
def linkedDispatch : linkDispatch Unit :=
  { CloseHookFuncList := [], rt := none, linkAddr := "127.0.0.1:4949",
    linkedConn := some ⟨7⟩, linkID := "c1" }

/-- A frame with opcode 1 and a two-byte payload. -/
def sampleFrame : Frame := { Opcode := 1, Marshal := [104, 105] }

/-- A close hook that counts its calls in a world of type `Nat`. -/
def countingHook : CloseHookFunc Nat := fun _ _ n => Except.ok (n + 1)

/-- The close hook installed when auto-reconnect is off (lines 23-25). -/
def abortingHook : CloseHookFunc Nat := fun _ _ _ => Except.error (PanicVal.str "conn close")

/-- The caller's world after the given hooks have run in turn with
`(connID, err)`, or the first panic among them. -/
def hooksAll {σ : Type} (connID : String) (err : GoError) :
    List (CloseHookFunc σ) → σ → Except PanicVal σ
  | [], u => Except.ok u
  | f :: fs, u =>
    match f connID err u with
    | Except.error p => Except.error p
    | Except.ok u1 => hooksAll connID err fs u1

/-- Register the callbacks one after the other with `Hook("close", f)`. -/
def hookAll {σ : Type} (d : baseDispatch σ) : List (CloseHookFunc σ) → baseDispatch σ
  | [] => d
  | f :: fs => hookAll (d.Hook "close" (Dyn.closeHook f)).d fs

/-- Events of the passes of the receive loop that hand the given frames to the router. -/
def dispatchEvents (c : Conn) (id : String) (frames : List (Nat × Bytes)) : List Event :=
  frames.flatMap (fun fr => [Event.recv c, Event.routerDo id fr.1 fr.2])

/-- The caller's world after the router has handled the given frames in turn. -/
def dispatchAll {σ : Type}
    (routerDo : Option (Router σ) → String → Nat → Bytes → σ → Except PanicVal σ)
    (rt : Option (Router σ)) (id : String) : List (Nat × Bytes) → σ → Except PanicVal σ
  | [], u => Except.ok u
  | fr :: frs, u =>
    match routerDo rt id fr.1 fr.2 u with
    | Except.error p => Except.error p
    | Except.ok u1 => dispatchAll routerDo rt id frs u1

/-- A connection that delivers the given frames and then fails with `e`. -/
def recvScript (frames : List (Nat × Bytes)) (e : String) : Nat → Except String (Nat × Bytes) :=
  fun n => match frames.get? n with
    | some fr => Except.ok fr
    | none => Except.error e

/-- A router dispatch that counts the frames it is given and returns. -/
def countingDo : Option (Router Nat) → String → Nat → Bytes → Nat → Except PanicVal Nat :=
  fun _ _ _ _ n => Except.ok (n + 100)

/-- The dispatcher built by `NewLinkedByDefaultCluster` without auto-reconnect,
on which a frame handler and then a second, counting, close hook are registered. -/
def guardedDispatch : linkDispatch Nat :=
  let d : linkDispatch Nat := NewLinkedByDefaultCluster cfgNoReconnect id
  let d1 : linkDispatch Nat :=
    { d with tobaseDispatch :=
        (d.tobaseDispatch.Handle "frame" (Dyn.frameHandler (fun _ _ v => Except.ok v)) 0).d }
  { d1 with tobaseDispatch :=
      (d1.tobaseDispatch.Hook "close" (Dyn.closeHook countingHook)).d }

/-- A dispatcher with a router and two counting close hooks. -/
def countingDispatch : linkDispatch Nat :=
  { CloseHookFuncList := [countingHook, countingHook],
    rt := some (Router.New (fun _ _ v => Except.ok v)),
    linkAddr := "127.0.0.1:4949", linkedConn := some ⟨7⟩, linkID := "" }

end dispatch

namespace logic

open dispatch (Bytes GoError PanicVal)

/-- Inbound frames as the client loop sees them: a `*frame.Response` with its
three fields, or a frame of another dynamic type. -/
inductive Frame where
  /-- Value of type `*frame.Response`. -/
  | Response (ReqID : String) (Result : Bytes) (Err : GoError)
  /-- Frame of any other type, named by `typeName`. -/
  | other (typeName : String)
  deriving DecidableEq, Repr

/-- Struct `CallResult` as built in `client.Handle`. -/
structure CallResult where
  Result : Bytes
  Err : GoError
  deriving DecidableEq, Repr

/-- End of a run of `client.Handle`: the wait registry, the calls made to its
`Callback` in order, and the panic that ended the loop; `none` when the loop
has consumed every frame delivered so far and is blocked in `Recv`. -/
structure HandleEnd (ω : Type) where
  waitChan : ω
  calls : List (String × CallResult)
  aborted : Option PanicVal

/-- Method `client.Handle` (logic_client.go, lines 45-66), run on the frames
that `c.dp.Recv()` delivers.  `Callback` stands for the method
`WaitChans.Callback`, which is not among the sources: it takes the registry,
the request id and the result, and gives back the registry and an error. -/
def client.Handle {ω : Type} (Callback : ω → String → CallResult → ω × GoError) :
    List Frame → ω → HandleEnd ω
  | [], wc => { waitChan := wc, calls := [], aborted := none }
  | Frame.other _ :: _, wc =>
    { waitChan := wc, calls := [], aborted := some (PanicVal.str "response type error") }
  | Frame.Response reqID result err :: rest, wc =>
    match Callback wc reqID { Result := result, Err := err } with
    | (wc1, some e) =>
      { waitChan := wc1, calls := [(reqID, { Result := result, Err := err })],
        aborted := some (PanicVal.err e) }
    | (wc1, none) =>
      let r := client.Handle Callback rest wc1
      { waitChan := r.waitChan, calls := (reqID, { Result := result, Err := err }) :: r.calls,
        aborted := r.aborted }

/-- The `Callback` call a frame gives rise to, if it is a response. -/
def callOf : Frame → Option (String × CallResult)
  | Frame.Response reqID result err => some (reqID, { Result := result, Err := err })
  | Frame.other _ => none

/-- Modelled from the spec: `callback(requestID, result)` resolves the pending
call registered under `requestID` and removes it; it fails with a "no such
pending call" error when the identifier is unknown.  The registry is the list
of pending request ids. -/
def pendingCallback (pending : List String) (reqID : String) (_r : CallResult) :
    List String × GoError :=
  if reqID ∈ pending then (pending.erase reqID, none)
  else (pending, some "no such pending call")

end logic

namespace dispatch

theorem hookAll_list {σ : Type} (fs : List (CloseHookFunc σ)) (d : baseDispatch σ) :
    (hookAll d fs).CloseHookFuncList = d.CloseHookFuncList ++ fs := by
  induction fs generalizing d with
  | nil => simp [hookAll]
  | cons f fs ih => simp [hookAll, ih, baseDispatch.Hook]

theorem hookAll_rt {σ : Type} (fs : List (CloseHookFunc σ)) (d : baseDispatch σ) :
    (hookAll d fs).rt = d.rt := by
  induction fs generalizing d with
  | nil => simp [hookAll]
  | cons f fs ih => simp [hookAll, ih, baseDispatch.Hook]

theorem runHooks_all_return {σ : Type} (connID : String) (err : GoError)
    (fs : List (CloseHookFunc σ)) (i : Nat) (u um : σ)
    (hret : hooksAll connID err fs u = Except.ok um) :
    (runHooks connID err fs i u).events
        = (List.range fs.length).map (fun j => Event.hookCall (i + j) connID err) ∧
      (runHooks connID err fs i u).result = Except.ok um := by
  induction fs generalizing i u with
  | nil =>
    simp only [hooksAll, Except.ok.injEq] at hret
    subst hret
    simp [runHooks]
  | cons f fs ih =>
    simp only [hooksAll] at hret
    cases hu1 : f connID err u with
    | error p =>
      rw [hu1] at hret
      exact Except.noConfusion hret
    | ok u1 =>
      rw [hu1] at hret
      have ih1 := ih (i + 1) u1 hret
      simp only [runHooks, hu1]
      refine ⟨?_, ih1.2⟩
      rw [ih1.1, List.length_cons, List.range_succ_eq_map]
      simp [Function.comp_def, Nat.add_assoc, Nat.add_comm 1]

theorem runHooks_stops_at_abort {σ : Type} (connID : String) (err : GoError)
    (pre post : List (CloseHookFunc σ)) (g : CloseHookFunc σ) (p : PanicVal) (i : Nat)
    (u um : σ) (hpre : hooksAll connID err pre u = Except.ok um)
    (hg : g connID err um = Except.error p) :
    (runHooks connID err (pre ++ g :: post) i u).events
        = (List.range (pre.length + 1)).map (fun j => Event.hookCall (i + j) connID err) ∧
      (runHooks connID err (pre ++ g :: post) i u).result = Except.error p := by
  induction pre generalizing i u with
  | nil =>
    simp only [hooksAll, Except.ok.injEq] at hpre
    subst hpre
    simp [runHooks, hg, List.range_succ]
  | cons f fs ih =>
    simp only [hooksAll] at hpre
    cases hu1 : f connID err u with
    | error q =>
      rw [hu1] at hpre
      exact Except.noConfusion hpre
    | ok u1 =>
      rw [hu1] at hpre
      have ih1 := ih (i + 1) u1 hpre
      rw [List.cons_append]
      simp only [runHooks, hu1]
      refine ⟨?_, ih1.2⟩
      rw [ih1.1, List.length_cons, List.range_succ_eq_map (fs.length + 1)]
      simp [Function.comp_def, Nat.add_assoc, Nat.add_comm 1]

/-- C1: for every state of a `linkDispatch`, every connection id and every frame,
when the connection id differs from the dispatcher's link id, `SendTo` returns a
non-nil error, does not abort, and leaves the transport as it was: no `Write` is
performed and the trace of events is unchanged. -/
theorem sendTo_foreign_id_errors_without_write {σ : Type} (d : linkDispatch σ)
    (connID : String) (f : Frame) (w : World) (h : connID ≠ d.linkID) :
    (d.SendTo connID f w).err ≠ none ∧
      (d.SendTo connID f w).aborted = none ∧
      (d.SendTo connID f w).w = w ∧
      (d.SendTo connID f w).w.trace = w.trace ∧
      writeCount (d.SendTo connID f w).w.trace = writeCount w.trace := by
  simp [linkDispatch.SendTo, h]

/-- C1 (witness): `SendTo("c2", f)` on a dispatcher linked under the id `"c1"`. -/
theorem sendTo_foreign_id_errors_without_write_witness :
    "c2" ≠ linkedDispatch.linkID ∧
      (linkedDispatch.SendTo "c2" sampleFrame refusingWorld).err ≠ none ∧
      (linkedDispatch.SendTo "c2" sampleFrame refusingWorld).aborted = none ∧
      (linkedDispatch.SendTo "c2" sampleFrame refusingWorld).w = refusingWorld ∧
      (linkedDispatch.SendTo "c2" sampleFrame refusingWorld).w.trace = refusingWorld.trace ∧
      writeCount (linkedDispatch.SendTo "c2" sampleFrame refusingWorld).w.trace
        = writeCount refusingWorld.trace :=
  ⟨by decide, sendTo_foreign_id_errors_without_write linkedDispatch "c2" sampleFrame
    refusingWorld (by decide)⟩

/-- C6 (counterexample): a dispatcher fresh from `NewLinkedByDefaultCluster`
whose only `Link` call failed to dial has no connection; `Send` on it aborts
with a nil dereference and returns no error to the caller. -/
theorem send_after_failed_link_aborts :
    (((NewLinkedByDefaultCluster cfgNoReconnect id : linkDispatch Unit).Link
        "127.0.0.1:4949" refusingWorld).err ≠ none) ∧
      (((NewLinkedByDefaultCluster cfgNoReconnect id : linkDispatch Unit).Link
        "127.0.0.1:4949" refusingWorld).d.linkedConn = none) ∧
      ((((NewLinkedByDefaultCluster cfgNoReconnect id : linkDispatch Unit).Link
        "127.0.0.1:4949" refusingWorld).d.Send sampleFrame refusingWorld).aborted
          = some PanicVal.nilDeref) ∧
      ¬ ((((NewLinkedByDefaultCluster cfgNoReconnect id : linkDispatch Unit).Link
          "127.0.0.1:4949" refusingWorld).d.Send sampleFrame refusingWorld).err ≠ none ∧
        (((NewLinkedByDefaultCluster cfgNoReconnect id : linkDispatch Unit).Link
          "127.0.0.1:4949" refusingWorld).d.Send sampleFrame refusingWorld).aborted = none) := by
  simp [NewLinkedByDefaultCluster, cfgNoReconnect, baseDispatch.Hook, linkDispatch.Link,
    refusingWorld, linkDispatch.Send, linkDispatch.writeFrame]

/-- C6 (amended): for every frame, `Send` on a `linkDispatch` that has no active
connection aborts with a nil-dereference panic instead of returning an error;
it writes nothing, the transport is left as it was. -/
theorem send_without_connection_aborts {σ : Type} (d : linkDispatch σ) (f : Frame)
    (w : World) (h : d.linkedConn = none) :
    (d.Send f w).aborted = some PanicVal.nilDeref ∧
      (d.Send f w).err = none ∧
      (d.Send f w).w = w ∧
      writeCount (d.Send f w).w.trace = writeCount w.trace := by
  simp [linkDispatch.Send, linkDispatch.writeFrame, h]

/-- C6 (witness): `Send` on a dispatcher on which `Link` was never called. -/
theorem send_without_connection_aborts_witness :
    (NewLinkedByDefaultCluster (cfgReconnect 3) id : linkDispatch Unit).linkedConn = none ∧
      ((NewLinkedByDefaultCluster (cfgReconnect 3) id : linkDispatch Unit).Send sampleFrame
          flakyWorld).aborted = some PanicVal.nilDeref ∧
      ((NewLinkedByDefaultCluster (cfgReconnect 3) id : linkDispatch Unit).Send sampleFrame
          flakyWorld).err = none ∧
      ((NewLinkedByDefaultCluster (cfgReconnect 3) id : linkDispatch Unit).Send sampleFrame
          flakyWorld).w = flakyWorld ∧
      writeCount ((NewLinkedByDefaultCluster (cfgReconnect 3) id : linkDispatch Unit).Send
          sampleFrame flakyWorld).w.trace = writeCount flakyWorld.trace :=
  ⟨by simp [NewLinkedByDefaultCluster, cfgReconnect, baseDispatch.Hook],
    send_without_connection_aborts _ sampleFrame flakyWorld
      (by simp [NewLinkedByDefaultCluster, cfgReconnect, baseDispatch.Hook])⟩

/-- C7: `Link(a)` stores `a` whether or not the dial succeeds, dials `a` once,
and returns a non-nil error, wrapping the dial error, exactly when the dial
fails, in which case the connection and the link id are unchanged.  `ReLink`
dials the stored address once, returns true exactly when that dial succeeds and
keeps the stored address; after `Link(a)` that address is `a`. -/
theorem link_stores_address_relink_redials {σ : Type} (d : linkDispatch σ) (a : String)
    (w : World) :
    (d.Link a w).d.linkAddr = a ∧
      (d.Link a w).w.trace = w.trace ++ linkEvents a (w.dials 0 a) ∧
      ((d.Link a w).err ≠ none ↔ dialFails (w.dials 0 a) = true) ∧
      (∀ e, w.dials 0 a = Except.error e →
        (d.Link a w).err = some ("dispatch link error: " ++ e) ∧
        (d.Link a w).d.linkedConn = d.linkedConn ∧ (d.Link a w).d.linkID = d.linkID) ∧
      (∀ c, w.dials 0 a = Except.ok c →
        (d.Link a w).err = none ∧ (d.Link a w).d.linkedConn = some c) ∧
      (d.ReLink w).d.linkAddr = d.linkAddr ∧
      (d.ReLink w).w.trace = w.trace ++ linkEvents d.linkAddr (w.dials 0 d.linkAddr) ∧
      ((d.ReLink w).ok = true ↔ dialFails (w.dials 0 d.linkAddr) = false) ∧
      ((d.Link a w).d.ReLink (d.Link a w).w).d.linkAddr = a ∧
      ((d.Link a w).d.ReLink (d.Link a w).w).w.trace
        = (d.Link a w).w.trace ++ linkEvents a (w.dials 1 a) ∧
      (((d.Link a w).d.ReLink (d.Link a w).w).ok = true ↔ dialFails (w.dials 1 a) = false) := by
  have hL : ∀ (d : linkDispatch σ) (a : String) (w : World),
      (d.Link a w).d.linkAddr = a ∧
      (d.Link a w).w.trace = w.trace ++ linkEvents a (w.dials 0 a) ∧
      ((d.Link a w).err ≠ none ↔ dialFails (w.dials 0 a) = true) ∧
      (d.Link a w).w.dials = (fun n => w.dials (n + 1)) := by
    intro d a w
    unfold linkDispatch.Link
    cases hd : w.dials 0 a <;> simp [World.emit, linkEvents, dialFails]
  have hR : ∀ (d : linkDispatch σ) (w : World),
      (d.ReLink w).d.linkAddr = d.linkAddr ∧
      (d.ReLink w).w.trace = w.trace ++ linkEvents d.linkAddr (w.dials 0 d.linkAddr) ∧
      ((d.ReLink w).ok = true ↔ dialFails (w.dials 0 d.linkAddr) = false) := by
    intro d w
    obtain ⟨h1, h2, h3, _⟩ := hL d d.linkAddr w
    refine ⟨h1, h2, ?_⟩
    simp only [linkDispatch.ReLink]
    cases hb : dialFails (w.dials 0 d.linkAddr)
    · cases he : (d.Link d.linkAddr w).err
      · simp
      · exact absurd (h3.mp (by simp [he])) (by simp [hb])
    · cases he : (d.Link d.linkAddr w).err
      · exact absurd (h3.mpr hb) (by simp [he])
      · simp
  obtain ⟨h1, h2, h3, h4⟩ := hL d a w
  have hr := hR (d.Link a w).d (d.Link a w).w
  rw [h1, h4] at hr
  refine ⟨h1, h2, h3, ?_, ?_, (hR d w).1, (hR d w).2.1, (hR d w).2.2, hr.1, hr.2.1, hr.2.2⟩
  · intro e he
    simp [linkDispatch.Link, he]
  · intro c hc
    simp [linkDispatch.Link, hc]

/-- C7 (witness): on a transport that refuses the first two dials, `Link` to a
new address fails and keeps the old connection and link id; the first `ReLink`
fails, the second succeeds, and all three dial the address given to `Link`. -/
theorem link_stores_address_relink_redials_witness :
    (linkedDispatch.Link "10.0.0.1:80" flakyWorld).err
        = some "dispatch link error: connection refused" ∧
      (linkedDispatch.Link "10.0.0.1:80" flakyWorld).d.linkAddr = "10.0.0.1:80" ∧
      (linkedDispatch.Link "10.0.0.1:80" flakyWorld).d.linkedConn = some ⟨7⟩ ∧
      (linkedDispatch.Link "10.0.0.1:80" flakyWorld).d.linkID = "c1" ∧
      ((linkedDispatch.Link "10.0.0.1:80" flakyWorld).d.ReLink
        (linkedDispatch.Link "10.0.0.1:80" flakyWorld).w).ok = false ∧
      (((linkedDispatch.Link "10.0.0.1:80" flakyWorld).d.ReLink
        (linkedDispatch.Link "10.0.0.1:80" flakyWorld).w).d.ReLink
          ((linkedDispatch.Link "10.0.0.1:80" flakyWorld).d.ReLink
            (linkedDispatch.Link "10.0.0.1:80" flakyWorld).w).w).ok = true ∧
      (((linkedDispatch.Link "10.0.0.1:80" flakyWorld).d.ReLink
        (linkedDispatch.Link "10.0.0.1:80" flakyWorld).w).d.ReLink
          ((linkedDispatch.Link "10.0.0.1:80" flakyWorld).d.ReLink
            (linkedDispatch.Link "10.0.0.1:80" flakyWorld).w).w).w.trace
        = [Event.dial "10.0.0.1:80", Event.dial "10.0.0.1:80", Event.dial "10.0.0.1:80",
            Event.goWork ⟨2⟩] := by
  have h := link_stores_address_relink_redials linkedDispatch "10.0.0.1:80" flakyWorld
  exact ⟨(h.2.2.2.1 "connection refused" rfl).1, h.1, rfl, rfl, rfl, rfl, rfl⟩

/-- C10: `Hook(kind, fn)` succeeds exactly when `kind` is `"close"` and `fn` is a
function of type `func(connID string, err error)`; on success the hook list is
the previous list with `fn` appended at the end and the router is unchanged; in
every other case `Hook` panics and the dispatcher is left unchanged. -/
theorem hook_registers_only_close_callbacks {σ : Type} (d : baseDispatch σ) (name : String)
    (fn : Dyn σ) :
    ((d.Hook name fn).aborted = none ↔ name = "close" ∧ ∃ f, fn = Dyn.closeHook f) ∧
      (∀ f, (d.Hook "close" (Dyn.closeHook f)).aborted = none ∧
        (d.Hook "close" (Dyn.closeHook f)).d.CloseHookFuncList = d.CloseHookFuncList ++ [f] ∧
        (d.Hook "close" (Dyn.closeHook f)).d.rt = d.rt) ∧
      ((d.Hook name fn).aborted ≠ none →
        (d.Hook name fn).d = d ∧
        (d.Hook name fn).d.CloseHookFuncList = d.CloseHookFuncList) := by
  refine ⟨?_, ?_, ?_⟩
  · unfold baseDispatch.Hook
    by_cases hn : name = "close"
    · cases fn <;> simp [hn]
    · simp [hn]
  · intro f
    simp [baseDispatch.Hook]
  · unfold baseDispatch.Hook
    by_cases hn : name = "close"
    · cases fn <;> simp [hn]
    · simp [hn]

/-- C10 (witness): a close callback is appended after the one already there; a
frame handler passed as a close hook, and a callback under another kind, panic
and leave the dispatcher as it was. -/
theorem hook_registers_only_close_callbacks_witness :
    ((hookAll ({ CloseHookFuncList := [], rt := none } : baseDispatch Nat)
        [abortingHook, countingHook]).CloseHookFuncList.length = 2) ∧
      (({ CloseHookFuncList := [abortingHook], rt := none } : baseDispatch Nat).Hook "close"
        (Dyn.closeHook countingHook)).aborted = none ∧
      (({ CloseHookFuncList := [abortingHook], rt := none } : baseDispatch Nat).Hook "close"
        (Dyn.frameHandler (fun _ _ u => Except.ok u))).aborted
          = some (PanicVal.str
            "close func must func(connID string, err error) but func(string, frame.Frame)") ∧
      (({ CloseHookFuncList := [abortingHook], rt := none } : baseDispatch Nat).Hook "open"
        (Dyn.closeHook countingHook)).aborted
          = some (PanicVal.str "hook func open not exist") ∧
      (({ CloseHookFuncList := [abortingHook], rt := none } : baseDispatch Nat).Hook "open"
        (Dyn.closeHook countingHook)).d.CloseHookFuncList.length = 1 := by
  have h := hook_registers_only_close_callbacks
    ({ CloseHookFuncList := [abortingHook], rt := none } : baseDispatch Nat) "open"
    (Dyn.closeHook countingHook)
  refine ⟨by simp [hookAll, baseDispatch.Hook], (h.2.1 countingHook).1, ?_, ?_, ?_⟩
  · simp [baseDispatch.Hook]
  · simp [baseDispatch.Hook]
  · have h2 := (h.2.2 (by simp [baseDispatch.Hook])).2
    rw [h2]
    rfl

/-- C8 (failing input): on a dispatcher whose router is still unset,
`Handle("ctrl", fn)` with a well-typed `fn` calls `fn` and then panics on the nil
router; no router exists afterwards, so nothing is installed.  The sibling case
`Handle("frame", h)` on the same dispatcher creates the router and succeeds. -/
theorem handle_ctrl_before_frame_aborts :
    ((({ CloseHookFuncList := [], rt := none } : baseDispatch Nat).Handle "ctrl"
        (Dyn.ctrlRegistrar (fun u => Except.ok ((7, fun _ _ v => Except.ok v), u + 1))) 0).aborted
          = some PanicVal.nilDeref) ∧
      ((({ CloseHookFuncList := [], rt := none } : baseDispatch Nat).Handle "ctrl"
        (Dyn.ctrlRegistrar (fun u => Except.ok ((7, fun _ _ v => Except.ok v), u + 1))) 0).user
          = 1) ∧
      ((({ CloseHookFuncList := [], rt := none } : baseDispatch Nat).Handle "ctrl"
        (Dyn.ctrlRegistrar (fun u => Except.ok ((7, fun _ _ v => Except.ok v), u + 1))) 0).d.rt.isNone
          = true) ∧
      ((({ CloseHookFuncList := [], rt := none } : baseDispatch Nat).Handle "frame"
        (Dyn.frameHandler (fun _ _ v => Except.ok v)) 0).aborted = none) ∧
      ((({ CloseHookFuncList := [], rt := none } : baseDispatch Nat).Handle "frame"
        (Dyn.frameHandler (fun _ _ v => Except.ok v)) 0).d.rt.isSome = true) := by
  simp [baseDispatch.Handle]

/-- C4 (counterexample): with the aborting hook of `NewLinkedByDefaultCluster`
registered first and a counting hook second, `DoCloseHook` calls only the first
hook and aborts; the second hook is never invoked. -/
theorem doCloseHook_skips_hooks_after_abort :
    ((hookAll ({ CloseHookFuncList := [], rt := none } : baseDispatch Nat)
        [abortingHook, countingHook]).DoCloseHook "c1" none 0).events
        = [Event.hookCall 0 "c1" none] ∧
      ((hookAll ({ CloseHookFuncList := [], rt := none } : baseDispatch Nat)
        [abortingHook, countingHook]).DoCloseHook "c1" none 0).result
        = Except.error (PanicVal.str "conn close") ∧
      ((hookAll ({ CloseHookFuncList := [], rt := none } : baseDispatch Nat)
        [abortingHook, countingHook]).DoCloseHook "c1" none 0).events
        ≠ [Event.hookCall 0 "c1" none, Event.hookCall 1 "c1" none] := by
  simp [hookAll, baseDispatch.Hook, baseDispatch.DoCloseHook, runHooks, abortingHook]

/-- C4 (amended): after the callbacks `fs` have been registered in turn with
`Hook("close", f)` on a dispatcher without hooks, the hook list is `fs`, and
`DoCloseHook(connID, err)` calls the hooks in registration order, each with
`(connID, err)` and each at most once.  When no hook aborts, every hook is
called exactly once and the call returns.  When a hook aborts, the hooks before
it and that hook have been called once, no later hook is called, and the call
aborts with that panic.  With no hook registered nothing is called and the call
returns. -/
theorem doCloseHook_calls_in_registration_order {σ : Type} (rt : Option (Router σ))
    (fs : List (CloseHookFunc σ)) (connID : String) (err : GoError) (u : σ) :
    (hookAll { CloseHookFuncList := [], rt := rt } fs).CloseHookFuncList = fs ∧
      (∀ um, hooksAll connID err fs u = Except.ok um →
        ((hookAll { CloseHookFuncList := [], rt := rt } fs).DoCloseHook connID err u).events
            = (List.range fs.length).map (fun j => Event.hookCall j connID err) ∧
          ((hookAll { CloseHookFuncList := [], rt := rt } fs).DoCloseHook connID err u).result
            = Except.ok um) ∧
      (∀ pre g post p um, fs = pre ++ g :: post →
        hooksAll connID err pre u = Except.ok um →
        g connID err um = Except.error p →
        ((hookAll { CloseHookFuncList := [], rt := rt } fs).DoCloseHook connID err u).events
            = (List.range (pre.length + 1)).map (fun j => Event.hookCall j connID err) ∧
          ((hookAll { CloseHookFuncList := [], rt := rt } fs).DoCloseHook connID err u).result
            = Except.error p) ∧
      (fs = [] →
        ((hookAll { CloseHookFuncList := [], rt := rt } fs).DoCloseHook connID err u).events = [] ∧
          ((hookAll { CloseHookFuncList := [], rt := rt } fs).DoCloseHook connID err u).result
            = Except.ok u) := by
  have hl : (hookAll { CloseHookFuncList := [], rt := rt } fs).CloseHookFuncList = fs := by
    simp [hookAll_list]
  refine ⟨hl, ?_, ?_, ?_⟩
  · intro um hret
    have h := runHooks_all_return connID err fs 0 u um hret
    simpa [baseDispatch.DoCloseHook, hl] using h
  · intro pre g post p um hfs hpre hg
    have h := runHooks_stops_at_abort connID err pre post g p 0 u um hpre hg
    rw [← hfs] at h
    simpa [baseDispatch.DoCloseHook, hl] using h
  · intro hfs
    subst hfs
    simp [baseDispatch.DoCloseHook, hookAll, runHooks]

/-- C4 (witness): two counting hooks are both called, in order; with the
aborting hook between them only the first two calls happen. -/
theorem doCloseHook_calls_in_registration_order_witness :
    ((hookAll ({ CloseHookFuncList := [], rt := none } : baseDispatch Nat)
        [countingHook, countingHook]).DoCloseHook "c1" (some "EOF") 0).events
        = [Event.hookCall 0 "c1" (some "EOF"), Event.hookCall 1 "c1" (some "EOF")] ∧
      ((hookAll ({ CloseHookFuncList := [], rt := none } : baseDispatch Nat)
        [countingHook, countingHook]).DoCloseHook "c1" (some "EOF") 0).result
        = Except.ok 2 ∧
      ((hookAll ({ CloseHookFuncList := [], rt := none } : baseDispatch Nat)
        [countingHook, abortingHook, countingHook]).DoCloseHook "c1" (some "EOF") 0).events
        = [Event.hookCall 0 "c1" (some "EOF"), Event.hookCall 1 "c1" (some "EOF")] ∧
      ((hookAll ({ CloseHookFuncList := [], rt := none } : baseDispatch Nat)
        [countingHook, abortingHook, countingHook]).DoCloseHook "c1" (some "EOF") 0).result
        = Except.error (PanicVal.str "conn close") := by
  have h1 := (doCloseHook_calls_in_registration_order (none : Option (Router Nat))
    [countingHook, countingHook] "c1" (some "EOF") 0).2.1 2 rfl
  have h2 := (doCloseHook_calls_in_registration_order (none : Option (Router Nat))
    [countingHook, abortingHook, countingHook] "c1" (some "EOF") 0).2.2.1
    [countingHook] abortingHook [countingHook] (PanicVal.str "conn close") 1 rfl rfl rfl
  refine ⟨?_, h1.2, ?_, h2.2⟩
  · rw [h1.1]; rfl
  · rw [h2.1]; rfl

theorem relink_after_sleep {σ : Type} (d : linkDispatch σ) (w : World) (iv : Int) :
    (d.ReLink (w.emit (Event.sleep iv))).d.linkAddr = d.linkAddr ∧
      (d.ReLink (w.emit (Event.sleep iv))).w.trace
        = w.trace ++ attemptEvents iv d.linkAddr (w.dials 0 d.linkAddr) ∧
      (d.ReLink (w.emit (Event.sleep iv))).w.dials = (fun n => w.dials (n + 1)) ∧
      (d.ReLink (w.emit (Event.sleep iv))).ok = !dialFails (w.dials 0 d.linkAddr) ∧
      (∀ c, w.dials 0 d.linkAddr = Except.ok c →
        (d.ReLink (w.emit (Event.sleep iv))).d.linkedConn = some c) := by
  unfold linkDispatch.ReLink linkDispatch.Link
  cases hd : w.dials 0 d.linkAddr <;> simp [World.emit, attemptEvents, dialFails, hd]

theorem dialCount_append (a b : List Event) : dialCount (a ++ b) = dialCount a + dialCount b := by
  simp [dialCount, List.countP_append]

theorem dialCount_attemptEvents (iv : Int) (addr : String) (o : Except String Conn) :
    dialCount (attemptEvents iv addr o) = 1 := by
  cases o <;> simp [attemptEvents, dialCount, List.countP_cons]

theorem dialCount_retryEvents (iv : Int) (addr : String) (n : Nat)
    (dials : Nat → String → Except String Conn) :
    dialCount (retryEvents iv addr dials n) = n := by
  induction n generalizing dials with
  | zero => simp [retryEvents, dialCount]
  | succ n ih =>
    simp [retryEvents, dialCount_append, dialCount_attemptEvents, ih, Nat.add_comm]

theorem retryLimited_linked {σ : Type} (cfg : DispatchConfig) (fuel : Nat) (i : Int)
    (d : linkDispatch σ) (w : World) :
    retryLimited cfg fuel i d w true = some { d := d, w := w, i := i, ok := true } := by
  cases fuel <;> simp [retryLimited]

theorem retryLimited_spec {σ : Type} (cfg : DispatchConfig) (n : Nat) :
    ∀ (fuel : Nat) (i : Int) (d : linkDispatch σ) (w : World),
      cfg.ReConnectionRetryCount = i + n → n ≤ fuel →
      ∃ (e : LoopEnd σ) (a : Nat), retryLimited cfg fuel i d w false = some e ∧
        e.i = i + (a : Int) ∧
        e.w.trace = w.trace ++
          retryEvents cfg.ReConnectionIntervalSecond d.linkAddr w.dials a ∧
        ((e.ok = false ∧ a = n ∧ ∀ j < n, dialFails (w.dials j d.linkAddr) = true) ∨
          (e.ok = true ∧ ∃ k, k < n ∧ a = k + 1 ∧
            (∀ j < k, dialFails (w.dials j d.linkAddr) = true) ∧
            dialFails (w.dials k d.linkAddr) = false)) := by
  induction n with
  | zero =>
    intro fuel i d w hN _
    refine ⟨{ d := d, w := w, i := i, ok := false }, 0, ?_, by simp, by simp [retryEvents], ?_⟩
    · cases fuel <;> simp [retryLimited, hN]
    · left; simp
  | succ n ih =>
    intro fuel i d w hN hfuel
    obtain ⟨f, rfl⟩ : ∃ f, fuel = f + 1 := ⟨fuel - 1, by omega⟩
    have hlt : i < cfg.ReConnectionRetryCount := by rw [hN]; push_cast; omega
    obtain ⟨h1, h2, h3, h4, _⟩ := relink_after_sleep d w cfg.ReConnectionIntervalSecond
    simp only [retryLimited, hlt, decide_True, Bool.not_false, Bool.and_self, if_true]
    cases hb : dialFails (w.dials 0 d.linkAddr)
    · -- the dial succeeds: the loop ends after this pass
      rw [hb] at h4
      simp only [Bool.not_false] at h4
      rw [h4, retryLimited_linked]
      refine ⟨_, 1, rfl, by simp, ?_, ?_⟩
      · simp [h2, retryEvents]
      · right
        exact ⟨rfl, 0, by omega, rfl, by simp, hb⟩
    · -- the dial fails: the loop goes on with one pass fewer
      rw [hb] at h4
      simp only [Bool.not_true] at h4
      rw [h4]
      obtain ⟨e, a, he, hi, htr, hcase⟩ := ih f (i + 1)
        (d.ReLink (w.emit (Event.sleep cfg.ReConnectionIntervalSecond))).d
        (d.ReLink (w.emit (Event.sleep cfg.ReConnectionIntervalSecond))).w
        (by rw [hN]; push_cast; omega) (by omega)
      rw [h1, h3] at hcase
      rw [h1, h2, h3] at htr
      refine ⟨e, a + 1, he, by rw [hi]; push_cast; omega, ?_, ?_⟩
      · rw [htr]
        simp [retryEvents, List.append_assoc]
      · rcases hcase with ⟨hok, ha, hall⟩ | ⟨hok, k, hk, ha, hall, hlast⟩
        · left
          refine ⟨hok, by omega, ?_⟩
          intro j hj
          cases j with
          | zero => exact hb
          | succ j => exact hall j (by omega)
        · right
          refine ⟨hok, k + 1, by omega, by omega, ?_, hlast⟩
          intro j hj
          cases j with
          | zero => exact hb
          | succ j => exact hall j (by omega)

theorem retryForever_spec {σ : Type} (cfg : DispatchConfig) (k : Nat) :
    ∀ (fuel : Nat) (d : linkDispatch σ) (w : World) (c : Conn),
      (∀ j < k, dialFails (w.dials j d.linkAddr) = true) →
      w.dials k d.linkAddr = Except.ok c → k < fuel →
      ∃ e, retryForever cfg fuel d w false = some e ∧ e.ok = true ∧
        e.d.linkedConn = some c ∧
        e.w.trace = w.trace ++
          retryEvents cfg.ReConnectionIntervalSecond d.linkAddr w.dials (k + 1) ∧
        e.w.trace = w.trace ++
          (List.replicate k [Event.sleep cfg.ReConnectionIntervalSecond,
            Event.dial d.linkAddr]).flatten ++
          [Event.sleep cfg.ReConnectionIntervalSecond, Event.dial d.linkAddr, Event.goWork c] := by
  induction k with
  | zero =>
    intro fuel d w c _ hok hfuel
    obtain ⟨f, rfl⟩ : ∃ f, fuel = f + 1 := ⟨fuel - 1, by omega⟩
    obtain ⟨h1, h2, h3, h4, h5⟩ := relink_after_sleep d w cfg.ReConnectionIntervalSecond
    have hr : retryForever cfg f
        (d.ReLink (w.emit (Event.sleep cfg.ReConnectionIntervalSecond))).d
        (d.ReLink (w.emit (Event.sleep cfg.ReConnectionIntervalSecond))).w true
        = some { d := (d.ReLink (w.emit (Event.sleep cfg.ReConnectionIntervalSecond))).d,
                 w := (d.ReLink (w.emit (Event.sleep cfg.ReConnectionIntervalSecond))).w,
                 i := 0, ok := true } := by
      cases f <;> simp [retryForever]
    simp only [retryForever, Bool.not_false, if_true]
    rw [h4, hok]
    simp only [dialFails, Bool.not_false]
    rw [hr]
    refine ⟨_, rfl, rfl, h5 c hok, ?_, ?_⟩
    · simp [h2, retryEvents, hok]
    · simp [h2, hok, attemptEvents]
  | succ k ih =>
    intro fuel d w c hfail hok hfuel
    obtain ⟨f, rfl⟩ : ∃ f, fuel = f + 1 := ⟨fuel - 1, by omega⟩
    obtain ⟨h1, h2, h3, h4, _⟩ := relink_after_sleep d w cfg.ReConnectionIntervalSecond
    have hb := hfail 0 (by omega)
    simp only [retryForever, Bool.not_false, if_true]
    rw [h4, hb]
    simp only [Bool.not_true]
    obtain ⟨e, he, hok1, hconn, htr, htr2⟩ := ih f
      (d.ReLink (w.emit (Event.sleep cfg.ReConnectionIntervalSecond))).d
      (d.ReLink (w.emit (Event.sleep cfg.ReConnectionIntervalSecond))).w c
      (by rw [h1, h3]; intro j hj; exact hfail (j + 1) (by omega))
      (by rw [h1, h3]; exact hok) (by omega)
    rw [h1, h2, h3] at htr
    rw [h1, h2] at htr2
    have hev : attemptEvents cfg.ReConnectionIntervalSecond d.linkAddr (w.dials 0 d.linkAddr)
        = [Event.sleep cfg.ReConnectionIntervalSecond, Event.dial d.linkAddr] := by
      cases hd : w.dials 0 d.linkAddr with
      | error _ => rfl
      | ok _ => simp [hd, dialFails] at hb
    refine ⟨e, he, hok1, hconn, ?_, ?_⟩
    · rw [htr]
      simp [retryEvents, List.append_assoc]
    · rw [htr2, hev]
      simp [List.replicate_succ, List.append_assoc]

theorem reconnect_hook_starts_task {σ : Type} (cfg : DispatchConfig)
    (hauto : cfg.AutoReConnection = true) (goReconnect : σ → σ) (connID : String)
    (err : GoError) (u : σ) :
    ((NewLinkedByDefaultCluster cfg goReconnect).DoCloseHook connID err u).events
        = [Event.hookCall 0 connID err] ∧
      ((NewLinkedByDefaultCluster cfg goReconnect).DoCloseHook connID err u).result
        = Except.ok (goReconnect u) := by
  simp [NewLinkedByDefaultCluster, hauto, baseDispatch.Hook, baseDispatch.DoCloseHook, runHooks]

/-- C2: with auto-reconnect on and a retry limit `N > 0`, the close hook
installed by `NewLinkedByDefaultCluster` starts the reconnect goroutine and
returns.  That goroutine ends for every sequence of dial outcomes, after `a`
passes of the loop body, each pass being one sleep of the configured interval
followed by one `ReLink`, that is one dial of the stored address.  The number
`a` is `min N k` when the `k`-th dial is the first that succeeds, and `N` when
the first `N` dials all fail.  The goroutine panics with `"connect closed"`
exactly when the first `N` dials all fail. -/
theorem reconnect_bounded_attempts {σ : Type} (cfg : DispatchConfig) (d : linkDispatch σ)
    (w : World) (fuel : Nat) (hauto : cfg.AutoReConnection = true)
    (hpos : 0 < cfg.ReConnectionRetryCount)
    (hfuel : cfg.ReConnectionRetryCount.toNat ≤ fuel) :
    (∀ (goReconnect : σ → σ) (connID : String) (err : GoError) (u : σ),
      ((NewLinkedByDefaultCluster cfg goReconnect).DoCloseHook connID err u).events
          = [Event.hookCall 0 connID err] ∧
        ((NewLinkedByDefaultCluster cfg goReconnect).DoCloseHook connID err u).result
          = Except.ok (goReconnect u)) ∧
    ∃ (e : TaskEnd σ) (a : Nat), reconnectTask cfg fuel d w = some e ∧
      e.w.trace = w.trace ++
        retryEvents cfg.ReConnectionIntervalSecond d.linkAddr w.dials a ∧
      dialCount e.w.trace = dialCount w.trace + a ∧
      (∀ k, (∀ j < k, dialFails (w.dials j d.linkAddr) = true) →
        dialFails (w.dials k d.linkAddr) = false →
        a = min cfg.ReConnectionRetryCount.toNat (k + 1)) ∧
      ((∀ j < cfg.ReConnectionRetryCount.toNat, dialFails (w.dials j d.linkAddr) = true) →
        a = cfg.ReConnectionRetryCount.toNat) ∧
      (e.aborted = some (PanicVal.str "connect closed") ↔
        ∀ j < cfg.ReConnectionRetryCount.toNat, dialFails (w.dials j d.linkAddr) = true) ∧
      (e.aborted = none ↔
        ¬ ∀ j < cfg.ReConnectionRetryCount.toNat, dialFails (w.dials j d.linkAddr) = true) ∧
      (e.ok = true ↔ e.aborted = none) := by
  refine ⟨fun goReconnect connID err u =>
    reconnect_hook_starts_task cfg hauto goReconnect connID err u, ?_⟩
  obtain ⟨e, a, he, _, htr, hcase⟩ := retryLimited_spec cfg cfg.ReConnectionRetryCount.toNat
    fuel 0 d w (by rw [Int.toNat_of_nonneg (le_of_lt hpos)]; simp) hfuel
  have hnle : ¬ cfg.ReConnectionRetryCount ≤ 0 := not_le.mpr hpos
  refine ⟨{ d := e.d, w := e.w, ok := e.ok,
            aborted := if !e.ok then some (PanicVal.str "connect closed") else none }, a,
    ?_, htr, ?_, ?_, ?_, ?_, ?_, ?_⟩
  · simp [reconnectTask, hnle, he]
  · simp [htr, dialCount_append, dialCount_retryEvents]
  · intro k hk hklast
    rcases hcase with ⟨_, ha, hall⟩ | ⟨_, k1, hk1, ha, hall, hlast⟩
    · have hge : cfg.ReConnectionRetryCount.toNat ≤ k := by
        by_contra hlt
        have := hall k (by omega)
        rw [hklast] at this
        exact Bool.noConfusion this
      rw [ha]; omega
    · have hkk : k = k1 := by
        rcases Nat.lt_trichotomy k k1 with h | h | h
        · have := hall k h
          rw [hklast] at this
          exact Bool.noConfusion this
        · exact h
        · have := hk k1 h
          rw [hlast] at this
          exact Bool.noConfusion this
      rw [ha, hkk]; omega
  · intro hallN
    rcases hcase with ⟨_, ha, _⟩ | ⟨_, k1, hk1, _, _, hlast⟩
    · exact ha
    · have := hallN k1 hk1
      rw [hlast] at this
      exact Bool.noConfusion this
  · rcases hcase with ⟨hok, _, hall⟩ | ⟨hok, k1, hk1, _, _, hlast⟩
    · simp only [hok, Bool.not_false, if_true, true_iff]
      exact hall
    · simp only [hok, Bool.not_true, Bool.false_eq_true, if_false]
      constructor
      · intro h
        exact Option.noConfusion h
      · intro hallN
        have := hallN k1 hk1
        rw [hlast] at this
        exact Bool.noConfusion this
  · rcases hcase with ⟨hok, _, hall⟩ | ⟨hok, k1, hk1, _, _, hlast⟩
    · simp only [hok, Bool.not_false, if_true]
      constructor
      · intro h
        exact Option.noConfusion h
      · intro h
        exact absurd hall h
    · simp only [hok, Bool.not_true, Bool.false_eq_true, if_false, true_iff]
      intro hallN
      have := hallN k1 hk1
      rw [hlast] at this
      exact Bool.noConfusion this
  · cases hok : e.ok <;> simp

/-- C2 (witness): limit 3 and a transport that refuses every dial. -/
theorem reconnect_bounded_attempts_witness :
    ((reconnectTask (cfgReconnect 3) 3 linkedDispatch refusingWorld).map
        (fun e => (e.w.trace, e.ok, e.aborted)))
        = some ([Event.sleep 1, Event.dial "127.0.0.1:4949", Event.sleep 1,
            Event.dial "127.0.0.1:4949", Event.sleep 1, Event.dial "127.0.0.1:4949"],
          false, some (PanicVal.str "connect closed")) ∧
      (cfgReconnect 3).AutoReConnection = true ∧
      (0 : Int) < (cfgReconnect 3).ReConnectionRetryCount ∧
      (cfgReconnect 3).ReConnectionRetryCount.toNat ≤ 3 ∧
      (∀ (goReconnect : Unit → Unit) (connID : String) (err : GoError) (u : Unit),
        ((NewLinkedByDefaultCluster (cfgReconnect 3) goReconnect).DoCloseHook connID err
            u).events = [Event.hookCall 0 connID err] ∧
          ((NewLinkedByDefaultCluster (cfgReconnect 3) goReconnect).DoCloseHook connID err
            u).result = Except.ok (goReconnect u)) ∧
      ∃ (e : TaskEnd Unit) (a : Nat),
        reconnectTask (cfgReconnect 3) 3 linkedDispatch refusingWorld = some e ∧
        e.w.trace = refusingWorld.trace ++
          retryEvents (cfgReconnect 3).ReConnectionIntervalSecond linkedDispatch.linkAddr
            refusingWorld.dials a ∧
        dialCount e.w.trace = dialCount refusingWorld.trace + a ∧
        (∀ k, (∀ j < k, dialFails (refusingWorld.dials j linkedDispatch.linkAddr) = true) →
          dialFails (refusingWorld.dials k linkedDispatch.linkAddr) = false →
          a = min (cfgReconnect 3).ReConnectionRetryCount.toNat (k + 1)) ∧
        ((∀ j < (cfgReconnect 3).ReConnectionRetryCount.toNat,
            dialFails (refusingWorld.dials j linkedDispatch.linkAddr) = true) →
          a = (cfgReconnect 3).ReConnectionRetryCount.toNat) ∧
        (e.aborted = some (PanicVal.str "connect closed") ↔
          ∀ j < (cfgReconnect 3).ReConnectionRetryCount.toNat,
            dialFails (refusingWorld.dials j linkedDispatch.linkAddr) = true) ∧
        (e.aborted = none ↔
          ¬ ∀ j < (cfgReconnect 3).ReConnectionRetryCount.toNat,
            dialFails (refusingWorld.dials j linkedDispatch.linkAddr) = true) ∧
        (e.ok = true ↔ e.aborted = none) :=
  ⟨rfl, rfl, by decide, by decide,
    reconnect_bounded_attempts (cfgReconnect 3) linkedDispatch refusingWorld 3
      rfl (by decide) (by decide)⟩

/-- C3: with auto-reconnect on and a retry limit at most 0, the close hook
installed by `NewLinkedByDefaultCluster` starts the reconnect goroutine and
returns.  A transport whose dial fails `k` times and then succeeds makes that
goroutine end after exactly `k + 1` passes of the loop body, each one sleep
followed by one `ReLink`; the last `ReLink` returns true, the new connection is
stored, and no panic is raised. -/
theorem reconnect_unbounded_until_linked {σ : Type} (cfg : DispatchConfig)
    (d : linkDispatch σ) (w : World) (k fuel : Nat) (c : Conn)
    (hauto : cfg.AutoReConnection = true)
    (hlim : cfg.ReConnectionRetryCount ≤ 0)
    (hfail : ∀ j < k, dialFails (w.dials j d.linkAddr) = true)
    (hok : w.dials k d.linkAddr = Except.ok c) (hfuel : k < fuel) :
    (∀ (goReconnect : σ → σ) (connID : String) (err : GoError) (u : σ),
      ((NewLinkedByDefaultCluster cfg goReconnect).DoCloseHook connID err u).events
          = [Event.hookCall 0 connID err] ∧
        ((NewLinkedByDefaultCluster cfg goReconnect).DoCloseHook connID err u).result
          = Except.ok (goReconnect u)) ∧
    ∃ e : TaskEnd σ, reconnectTask cfg fuel d w = some e ∧
      e.ok = true ∧ e.aborted = none ∧ e.d.linkedConn = some c ∧
      e.w.trace = w.trace ++
        (List.replicate k [Event.sleep cfg.ReConnectionIntervalSecond,
          Event.dial d.linkAddr]).flatten ++
        [Event.sleep cfg.ReConnectionIntervalSecond, Event.dial d.linkAddr, Event.goWork c] ∧
      dialCount e.w.trace = dialCount w.trace + (k + 1) := by
  refine ⟨fun goReconnect connID err u =>
    reconnect_hook_starts_task cfg hauto goReconnect connID err u, ?_⟩
  obtain ⟨e, he, hok1, hconn, htr, htr2⟩ := retryForever_spec cfg k fuel d w c hfail hok hfuel
  refine ⟨{ d := e.d, w := e.w, ok := e.ok, aborted := none }, ?_, hok1, rfl, hconn, htr2, ?_⟩
  · simp [reconnectTask, hlim, he]
  · simp [htr, dialCount_append, dialCount_retryEvents]

/-- C3 (witness): limit 0, the dial fails twice and then succeeds: three
attempts, no panic. -/
theorem reconnect_unbounded_until_linked_witness :
    ((reconnectTask (cfgReconnect 0) 3 linkedDispatch flakyWorld).map
        (fun e => (e.w.trace, e.ok, e.aborted)))
        = some ([Event.sleep 1, Event.dial "127.0.0.1:4949", Event.sleep 1,
            Event.dial "127.0.0.1:4949", Event.sleep 1, Event.dial "127.0.0.1:4949",
            Event.goWork ⟨2⟩], true, none) ∧
      (cfgReconnect 0).AutoReConnection = true ∧
      (cfgReconnect 0).ReConnectionRetryCount ≤ 0 ∧
      (∀ j < 2, dialFails (flakyWorld.dials j linkedDispatch.linkAddr) = true) ∧
      flakyWorld.dials 2 linkedDispatch.linkAddr = Except.ok ⟨2⟩ ∧
      (∀ (goReconnect : Unit → Unit) (connID : String) (err : GoError) (u : Unit),
        ((NewLinkedByDefaultCluster (cfgReconnect 0) goReconnect).DoCloseHook connID err
            u).events = [Event.hookCall 0 connID err] ∧
          ((NewLinkedByDefaultCluster (cfgReconnect 0) goReconnect).DoCloseHook connID err
            u).result = Except.ok (goReconnect u)) ∧
      ∃ e : TaskEnd Unit, reconnectTask (cfgReconnect 0) 3 linkedDispatch flakyWorld = some e ∧
        e.ok = true ∧ e.aborted = none ∧ e.d.linkedConn = some ⟨2⟩ ∧
        e.w.trace = flakyWorld.trace ++
          (List.replicate 2 [Event.sleep (cfgReconnect 0).ReConnectionIntervalSecond,
            Event.dial linkedDispatch.linkAddr]).flatten ++
          [Event.sleep (cfgReconnect 0).ReConnectionIntervalSecond,
            Event.dial linkedDispatch.linkAddr, Event.goWork ⟨2⟩] ∧
        dialCount e.w.trace = dialCount flakyWorld.trace + (2 + 1) :=
  ⟨rfl, rfl, by decide, by decide, rfl,
    reconnect_unbounded_until_linked (cfgReconnect 0) linkedDispatch flakyWorld 2 3 ⟨2⟩
      rfl (by decide) (by decide) rfl (by decide)⟩

theorem workLoop_spec {σ : Type}
    (routerDo : Option (Router σ) → String → Nat → Bytes → σ → Except PanicVal σ)
    (d : linkDispatch σ) (c : Conn) (id : String) (e : String)
    (frames : List (Nat × Bytes)) :
    ∀ (fuel : Nat) (recvs : Nat → Except String (Nat × Bytes)) (u um : σ),
      (∀ j (h : j < frames.length), recvs j = Except.ok frames[j]) →
      recvs frames.length = Except.error e → frames.length < fuel →
      dispatchAll routerDo d.rt id frames u = Except.ok um →
      ∃ r : Run σ,
        linkDispatch.workLoop routerDo d c id fuel recvs u = some r ∧
        r.events = dispatchEvents c id frames ++ [Event.recv c, Event.close c] ++
          (d.DoCloseHook id (some e) um).events ∧
        r.result = (d.DoCloseHook id (some e) um).result := by
  induction frames with
  | nil =>
    intro fuel recvs u um _ herr hfuel hall
    obtain ⟨f, rfl⟩ : ∃ f, fuel = f + 1 := ⟨fuel - 1, by simp at hfuel; omega⟩
    simp only [List.length_nil] at herr
    simp only [dispatchAll, Except.ok.injEq] at hall
    subst hall
    refine ⟨{ events := [Event.recv c, Event.close c] ++ (d.DoCloseHook id (some e) u).events,
              result := (d.DoCloseHook id (some e) u).result }, ?_, ?_, rfl⟩
    · simp only [linkDispatch.workLoop]
      rw [herr]
    · simp [dispatchEvents]
  | cons fr frs ih =>
    intro fuel recvs u um hrecv herr hfuel hall
    obtain ⟨f, rfl⟩ : ∃ f, fuel = f + 1 := ⟨fuel - 1, by omega⟩
    have h0 : recvs 0 = Except.ok fr := by
      have := hrecv 0 (by simp)
      simpa using this
    simp only [dispatchAll] at hall
    cases hu1 : routerDo d.rt id fr.1 fr.2 u with
    | error p =>
      rw [hu1] at hall
      exact Except.noConfusion hall
    | ok u1 =>
      rw [hu1] at hall
      obtain ⟨r, hr, hev, hres⟩ := ih f (fun n => recvs (n + 1)) u1 um
        (by
          intro j hj
          have := hrecv (j + 1) (by simp; omega)
          simpa using this)
        (by simpa using herr) (by simp at hfuel; omega) hall
      refine ⟨{ events := Event.recv c :: Event.routerDo id fr.1 fr.2 :: r.events,
                result := r.result }, ?_, ?_, hres⟩
      · simp only [linkDispatch.workLoop]
        rw [h0]
        simp only [hu1, hr]
      · simp [hev, dispatchEvents]

/-- C5 (counterexample): on the dispatcher built without auto-reconnect, with a
second close hook registered after the built-in one, a connection that delivers
one frame and then fails makes `work` dispatch the frame, close the connection
and call the first hook, which panics; the second registered hook is never
invoked for that termination. -/
theorem work_skips_hooks_after_abort :
    guardedDispatch.CloseHookFuncList.length = 2 ∧
      ((guardedDispatch.work countingDo ⟨7⟩ "id1" 5 (recvScript [(1, [9])] "EOF") 0).2.map
        (fun r => (r.events, r.result)))
        = some ([Event.recv ⟨7⟩, Event.routerDo "id1" 1 [9], Event.recv ⟨7⟩, Event.close ⟨7⟩,
            Event.hookCall 0 "id1" (some "EOF")],
          Except.error (PanicVal.str "conn close")) ∧
      ((guardedDispatch.work countingDo ⟨7⟩ "id1" 5 (recvScript [(1, [9])] "EOF") 0).2.map
        (fun r => decide (Event.hookCall 1 "id1" (some "EOF") ∈ r.events))) = some false :=
  ⟨rfl, rfl, by decide⟩

/-- C5 (amended): when the connection delivers the frames `frames` and then
fails with `e`, and the router dispatch of each of these frames returns, `work`
assigns its own id as link id, hands exactly those frames to the router in
receive order, each with that id, then closes the connection once, then calls
`DoCloseHook` exactly once with that id and `e`, and ends; nothing follows the
hook calls.  `DoCloseHook` calls the hooks in registration order and stops at
the first that aborts: when no hook aborts, every registered hook is called
exactly once and `work` returns. -/
theorem work_dispatches_then_closes_then_hooks {σ : Type}
    (routerDo : Option (Router σ) → String → Nat → Bytes → σ → Except PanicVal σ)
    (d : linkDispatch σ) (c : Conn) (id : String) (e : String)
    (frames : List (Nat × Bytes)) (fuel : Nat) (recvs : Nat → Except String (Nat × Bytes))
    (u um : σ)
    (hrecv : ∀ j (h : j < frames.length), recvs j = Except.ok frames[j])
    (herr : recvs frames.length = Except.error e) (hfuel : frames.length < fuel)
    (hall : dispatchAll routerDo d.rt id frames u = Except.ok um) :
    (d.work routerDo c id fuel recvs u).1.linkID = id ∧
      ∃ r : Run σ,
        (d.work routerDo c id fuel recvs u).2 = some r ∧
        r.events = dispatchEvents c id frames ++ [Event.recv c, Event.close c] ++
          (d.DoCloseHook id (some e) um).events ∧
        r.result = (d.DoCloseHook id (some e) um).result ∧
        (∀ u1, hooksAll id (some e) d.CloseHookFuncList um = Except.ok u1 →
          r.events = dispatchEvents c id frames ++ [Event.recv c, Event.close c] ++
            (List.range d.CloseHookFuncList.length).map
              (fun j => Event.hookCall j id (some e)) ∧
          r.result = Except.ok u1) := by
  refine ⟨rfl, ?_⟩
  obtain ⟨r, hr, hev, hres⟩ := workLoop_spec routerDo { d with linkID := id } c id e
    frames fuel recvs u um hrecv herr hfuel hall
  refine ⟨r, hr, hev, hres, ?_⟩
  intro u1 hret
  have h := runHooks_all_return id (some e) d.CloseHookFuncList 0 um u1 hret
  have hev2 : (d.DoCloseHook id (some e) um).events
      = (List.range d.CloseHookFuncList.length).map (fun j => Event.hookCall j id (some e)) := by
    simpa [baseDispatch.DoCloseHook] using h.1
  refine ⟨?_, ?_⟩
  · rw [← hev2]
    exact hev
  · rw [hres]
    exact h.2

/-- C5 (witness): two frames, then `EOF`, on a dispatcher with two counting
hooks: two dispatches, one close, each hook called once, in order. -/
theorem work_dispatches_then_closes_then_hooks_witness :
    ((countingDispatch.work countingDo ⟨7⟩ "id1" 5
        (recvScript [(1, [9]), (2, [])] "EOF") 0).2.map (fun r => (r.events, r.result)))
        = some ([Event.recv ⟨7⟩, Event.routerDo "id1" 1 [9], Event.recv ⟨7⟩,
            Event.routerDo "id1" 2 [], Event.recv ⟨7⟩, Event.close ⟨7⟩,
            Event.hookCall 0 "id1" (some "EOF"), Event.hookCall 1 "id1" (some "EOF")],
          Except.ok 202) ∧
      (countingDispatch.work countingDo ⟨7⟩ "id1" 5
        (recvScript [(1, [9]), (2, [])] "EOF") 0).1.linkID = "id1" ∧
      ∃ r : Run Nat,
        (countingDispatch.work countingDo ⟨7⟩ "id1" 5
          (recvScript [(1, [9]), (2, [])] "EOF") 0).2 = some r ∧
        r.events = dispatchEvents ⟨7⟩ "id1" [(1, [9]), (2, [])] ++
          [Event.recv ⟨7⟩, Event.close ⟨7⟩] ++
          (countingDispatch.DoCloseHook "id1" (some "EOF") 200).events ∧
        r.result = (countingDispatch.DoCloseHook "id1" (some "EOF") 200).result ∧
        (∀ u1, hooksAll "id1" (some "EOF") countingDispatch.CloseHookFuncList 200
            = Except.ok u1 →
          r.events = dispatchEvents ⟨7⟩ "id1" [(1, [9]), (2, [])] ++
            [Event.recv ⟨7⟩, Event.close ⟨7⟩] ++
            (List.range countingDispatch.CloseHookFuncList.length).map
              (fun j => Event.hookCall j "id1" (some "EOF")) ∧
          r.result = Except.ok u1) :=
  ⟨rfl, work_dispatches_then_closes_then_hooks countingDo countingDispatch ⟨7⟩ "id1" "EOF"
    [(1, [9]), (2, [])] 5 (recvScript [(1, [9]), (2, [])] "EOF") 0 200
    (by
      intro j hj
      have hj2 : j < 2 := hj
      interval_cases j <;> rfl)
    rfl (by decide) rfl⟩

end dispatch

namespace logic

open dispatch (Bytes GoError PanicVal)

theorem handle_calls_initial {ω : Type} (Callback : ω → String → CallResult → ω × GoError)
    (frames : List Frame) :
    ∀ wc : ω, (client.Handle Callback frames wc).calls <+: frames.filterMap callOf := by
  induction frames with
  | nil => intro wc; simp [client.Handle]
  | cons f rest ih =>
    intro wc
    cases f with
    | other t => simp [client.Handle]
    | Response reqID result err =>
      simp only [client.Handle]
      rcases hcb : Callback wc reqID { Result := result, Err := err } with ⟨wc1, _ | e⟩
      · simp only [List.filterMap_cons, callOf]
        exact (List.prefix_cons_inj _).mpr (ih wc1)
      · simp only [List.filterMap_cons, callOf]
        exact (List.prefix_cons_inj _).mpr ⟨_, rfl⟩

/-- C9: for every inbound frame taken by the client loop: a `Response` with
fields `(ReqID, Result, Err)` makes the loop call `Callback` once, with request
id `ReqID` and a `CallResult` holding `Result` and `Err`; when that call returns
an error the loop panics with that error and takes no further frame, otherwise
it goes on with the next frame; a frame that is not a `Response` makes the loop
panic with `"response type error"` without calling `Callback`.  Over a whole
run, the calls made are, in order, those of a prefix of the response frames
received: no call carries another request id. -/
theorem handle_forwards_responses_to_callback {ω : Type}
    (Callback : ω → String → CallResult → ω × GoError) (rest : List Frame) (wc : ω) :
    (∀ reqID result err e,
      (Callback wc reqID { Result := result, Err := err }).2 = some e →
        (client.Handle Callback (Frame.Response reqID result err :: rest) wc).calls
            = [(reqID, { Result := result, Err := err })] ∧
          (client.Handle Callback (Frame.Response reqID result err :: rest) wc).aborted
            = some (PanicVal.err e) ∧
          (client.Handle Callback (Frame.Response reqID result err :: rest) wc).waitChan
            = (Callback wc reqID { Result := result, Err := err }).1) ∧
      (∀ reqID result err,
        (Callback wc reqID { Result := result, Err := err }).2 = none →
          (client.Handle Callback (Frame.Response reqID result err :: rest) wc).calls
              = (reqID, { Result := result, Err := err }) ::
                (client.Handle Callback rest
                  (Callback wc reqID { Result := result, Err := err }).1).calls ∧
            (client.Handle Callback (Frame.Response reqID result err :: rest) wc).aborted
              = (client.Handle Callback rest
                  (Callback wc reqID { Result := result, Err := err }).1).aborted ∧
            (client.Handle Callback (Frame.Response reqID result err :: rest) wc).waitChan
              = (client.Handle Callback rest
                  (Callback wc reqID { Result := result, Err := err }).1).waitChan) ∧
      (∀ t,
        (client.Handle Callback (Frame.other t :: rest) wc).calls = [] ∧
          (client.Handle Callback (Frame.other t :: rest) wc).aborted
            = some (PanicVal.str "response type error") ∧
          (client.Handle Callback (Frame.other t :: rest) wc).waitChan = wc) ∧
      (client.Handle Callback rest wc).calls <+: rest.filterMap callOf ∧
      (client.Handle Callback rest wc).calls.length ≤ rest.length := by
  refine ⟨?_, ?_, ?_, handle_calls_initial Callback rest wc, ?_⟩
  · intro reqID result err e he
    simp only [client.Handle]
    rcases hcb : Callback wc reqID { Result := result, Err := err } with ⟨wc1, _ | e1⟩
    · rw [hcb] at he
      exact Option.noConfusion he
    · rw [hcb] at he
      simp only [Option.some.injEq] at he
      subst he
      exact ⟨rfl, rfl, rfl⟩
  · intro reqID result err he
    simp only [client.Handle]
    rcases hcb : Callback wc reqID { Result := result, Err := err } with ⟨wc1, _ | e1⟩
    · exact ⟨rfl, rfl, rfl⟩
    · rw [hcb] at he
      exact Option.noConfusion he
  · intro t
    simp [client.Handle]
  · have h := (handle_calls_initial Callback rest wc).length_le
    exact le_trans h (List.length_filterMap_le _ _)

/-- C9 (witness): with request `"a"` pending, the response for `"a"` is
forwarded and resolves it, the response for the unknown id `"b"` is forwarded
and its error ends the loop, and the third frame is never taken; a frame that
is not a response ends the loop without a call. -/
theorem handle_forwards_responses_to_callback_witness :
    (client.Handle pendingCallback
        [Frame.Response "a" [1] none, Frame.Response "b" [2] (some "failed"),
          Frame.Response "a" [3] none] ["a"]).calls
        = [("a", { Result := [1], Err := none }), ("b", { Result := [2], Err := some "failed" })] ∧
      (client.Handle pendingCallback
        [Frame.Response "a" [1] none, Frame.Response "b" [2] (some "failed"),
          Frame.Response "a" [3] none] ["a"]).aborted
        = some (PanicVal.err "no such pending call") ∧
      (client.Handle pendingCallback [Frame.other "*frame.Request", Frame.Response "a" [1] none]
        ["a"]).calls = [] ∧
      (client.Handle pendingCallback [Frame.other "*frame.Request", Frame.Response "a" [1] none]
        ["a"]).aborted = some (PanicVal.str "response type error") := by
  have h := handle_forwards_responses_to_callback pendingCallback
    [Frame.Response "a" [1] none] ["a"]
  refine ⟨by decide, by decide, (h.2.2.1 "*frame.Request").1, (h.2.2.1 "*frame.Request").2.1⟩

end logic
